import Mathlib

/-!
# Verification of mne_rsa/viz.py

A shallow embedding of the DSM visualization module `mne_rsa/viz.py`.

Modelling choices:

* numpy arrays become `NDArray`: an explicit `shape` plus the flat row-major
  `data` as a list of rationals (floating point is modelled by `ℚ`; the claims
  under study involve only exact means of small integers).
* matplotlib figure management becomes an explicit `PltState`: the registry of
  live figures (pyplot keeps figures keyed by number; `plt.figure(num)`
  re-activates the figure with that number when it exists).  A figure records
  its number, its per-sensor panel contents, and its suptitle.  Pure styling
  parameters (colors, figsize, colormap name, `show`) are pass-throughs to the
  external toolkit and carry no information relevant to control flow, so they
  are not modelled.
* Python exceptions become the `PyError` enumeration, one constructor per
  distinct raise site / runtime failure the embedded code can reach.
* `scipy.spatial.distance.squareform` on a condensed vector is modelled by
  `squareform`, which recovers the matrix dimension from the vector length and
  fails (as scipy does) on incompatible lengths.
* the layout iterator `_iter_topography` yields one axes per sensor of the
  recording metadata; the embedding keeps only the number of sensors it
  yields (`nSensors`) and the fact that iteration step `i` draws `dsms[i]`
  into panel slot `i`.
-/

set_option autoImplicit false

namespace MneRsaViz

/-- Python exceptions, one constructor per raise site or runtime failure
reachable in the embedded code. -/
inductive PyError where
  /-- `ValueError(f"Invalid shape {dsm.shape} for DSM")`, viz.py line 59. -/
  | valueErrorGridShape
  /-- `ValueError("Number of given names ... does not match ...")`, line 44. -/
  | valueErrorNamesArity
  /-- `ValueError("dsms have to be 3-dimensional ...")`, line 208. -/
  | valueErrorTensorShape
  /-- `TypeError("time has to be list of [int, int].")`, lines 214 and 216. -/
  | typeErrorTimeWindows
  /-- `ValueError("time_windows and figs needs to have a same length ...")`, line 220. -/
  | valueErrorFigsArity
  /-- `TypeError`: subscripting `None` (`figs[i]` when `figs` is `None`). -/
  | typeErrorNoneSub
  /-- `TypeError`: slicing an array with non-integer bounds. -/
  | typeErrorSlice
  /-- `TypeError`: subscripting a non-subscriptable object. -/
  | typeErrorSubscript
  /-- `IndexError`: list index out of range. -/
  | indexError
  /-- `ValueError` raised by `scipy.spatial.distance.squareform` on a vector
  whose length is not a valid condensed size. -/
  | valueErrorSquareform
  /-- `TypeError` raised by `imshow` on data that is not 2-D. -/
  | typeErrorImshow
  /-- `UnboundLocalError`: `plt.colorbar(im, ...)` at line 68 with `im` never
  assigned (no grid cell was drawn). -/
  | unboundLocalErrorIm
  /-- `ZeroDivisionError`: `len(dsms) / n_rows` with `n_rows = 0`. -/
  | zeroDivisionError
  deriving DecidableEq, Repr

/-- Python runtime values, as far as the `time_windows` argument needs:
integers, strings, lists and tuples. -/
inductive PyVal where
  | vInt (n : ℤ)
  | vStr (s : String)
  | vList (xs : List PyVal)
  | vTuple (xs : List PyVal)

/-- `isinstance(v, list)`. -/
def PyVal.isVList : PyVal → Bool
  | .vList _ => true
  | _ => false

/-- The elements a Python `for`-iteration or subscript sees in a list or a
tuple; other values are handled separately at the use sites. -/
def PyVal.elems : PyVal → List PyVal
  | .vList xs => xs
  | .vTuple xs => xs
  | _ => []

/-- A numpy `ndarray`: explicit shape and flat row-major data over `ℚ`. -/
structure NDArray where
  shape : List ℕ
  data : List ℚ
  deriving DecidableEq, Repr

/-- `a.ndim`. -/
def NDArray.ndim (a : NDArray) : ℕ := a.shape.length

/-- `a.shape[i]` (0 outside the shape list). -/
def NDArray.dim (a : NDArray) (i : ℕ) : ℕ := a.shape.getD i 0

/-- Element `a[i, j, k]` of a 3-D array, row-major. -/
def NDArray.get3 (a : NDArray) (i j k : ℕ) : ℚ :=
  a.data.getD ((i * a.dim 1 + j) * a.dim 2 + k) 0

/-- Element `a[i, k]` of a 2-D array, row-major. -/
def NDArray.get2 (a : NDArray) (i k : ℕ) : ℚ :=
  a.data.getD (i * a.dim 1 + k) 0

/-- Row `a[i]` of a 2-D array. -/
def NDArray.rowOf (a : NDArray) (i : ℕ) : List ℚ :=
  (List.range (a.dim 1)).map fun k => a.get2 i k

/-- A 2-D array as a matrix (list of rows). -/
def NDArray.toMatrix (a : NDArray) : List (List ℚ) :=
  (List.range (a.dim 0)).map fun i => (List.range (a.dim 1)).map fun j => a.get2 i j

/-- The matrix dimension scipy's `squareform` recovers from a condensed
vector of length `m`: the `n` with `n * (n - 1) / 2 = m` (none if `m` is not
a valid condensed size). -/
def squareformDim (m : ℕ) : Option ℕ :=
  (List.range (2 * m + 2)).find? fun n => n * (n - 1) / 2 == m

/-- Position of entry `(i, j)` (with `i < j`) of an `n × n` matrix inside the
row-major condensed upper-triangular vector. -/
def condensedIndex (n i j : ℕ) : ℕ :=
  i * n - i * (i + 1) / 2 + (j - i - 1)

/-- `scipy.spatial.distance.squareform` on a condensed vector: the symmetric
zero-diagonal square matrix, or `none` on incompatible vector length. -/
def squareform (d : List ℚ) : Option (List (List ℚ)) :=
  (squareformDim d.length).map fun n =>
    (List.range n).map fun i => (List.range n).map fun j =>
      if i = j then 0
      else if i < j then d.getD (condensedIndex n i j) 0
      else d.getD (condensedIndex n j i) 0

/-- Python slice-bound normalization for an axis of length `t`: negative
bounds count from the end, and bounds are clamped into `[0, t]`. -/
def sliceIdx (t : ℕ) (v : ℤ) : ℕ :=
  if v < 0 then (max ((t : ℤ) + v) 0).toNat else min v.toNat t

/-- `dsms[:, w0:w1, :].mean(axis=1)` (viz.py lines 225 and 226): slice the
time axis of the 3-D array to `[w0, w1)` and average elementwise over it,
yielding the 2-D array of one condensed DSM per sensor. -/
def windowMean (a : NDArray) (w0 w1 : ℤ) : NDArray :=
  let lo := sliceIdx (a.dim 1) w0
  let hi := sliceIdx (a.dim 1) w1
  let cnt := hi - lo
  { shape := [a.dim 0, a.dim 2]
    data := (List.range (a.dim 0)).flatMap fun i =>
      (List.range (a.dim 2)).map fun k =>
        (((List.range cnt).map fun j => a.get3 i (lo + j) k).sum) / (cnt : ℚ) }

/-- A matplotlib figure: its pyplot number, the heatmap drawn in each sensor
panel slot, and its suptitle. -/
structure Figure where
  number : ℕ
  panels : List (Option (List (List ℚ)))
  title : Option String
  deriving DecidableEq, Repr

/-- The pyplot figure registry: the live figures and the number the next
fresh figure receives. -/
structure PltState where
  figures : List Figure
  nextNum : ℕ
  deriving DecidableEq, Repr

/-- The registry with no live figures. -/
def emptyPlt : PltState := ⟨[], 0⟩

/-- The live figure with pyplot number `n`, if any. -/
def findFig (st : PltState) (n : ℕ) : Option Figure :=
  st.figures.find? fun f => f.number == n

/-- Apply `g` to the figure(s) with number `n` in the registry. -/
def updateFig (st : PltState) (n : ℕ) (g : Figure → Figure) : PltState :=
  { st with figures := st.figures.map fun f => if f.number = n then g f else f }

/-- Store `m` in panel slot `i`, extending the slot list as needed. -/
def setSlot (ps : List (Option (List (List ℚ)))) (i : ℕ) (m : List (List ℚ)) :
    List (Option (List (List ℚ))) :=
  (ps ++ List.replicate (i + 1 - ps.length) none).set i (some m)

/-- The content of panel slot `i`. -/
def getSlot (ps : List (Option (List (List ℚ)))) (i : ℕ) : Option (List (List ℚ)) :=
  ps.getD i none

/-- The content of panel `i` of the figure numbered `n`. -/
def panelOf (st : PltState) (n i : ℕ) : Option (List (List ℚ)) :=
  match findFig st n with
  | some f => getSlot f.panels i
  | none => none

/-- The drawing loop of `_plot_dsms_topo` (viz.py lines 152-155): for each
layout-iteration step `i`, take row `dsms[i]`, expand it with `squareform`,
and `imshow` it into panel `i` of the figure numbered `n`. -/
def drawSensors (n : ℕ) (dsms : NDArray) : PltState → List ℕ → Except PyError PltState
  | st, [] => .ok st
  | st, i :: is =>
    if i < dsms.dim 0 then
      match squareform (dsms.rowOf i) with
      | some sq =>
          drawSensors n dsms
            (updateFig st n fun f => { f with panels := setSlot f.panels i sq }) is
      | none => .error .valueErrorSquareform
    else .error .indexError

/-- `_plot_dsms_topo` (viz.py lines 94-160).  With `fig=None` a fresh figure
is created and given the suptitle; otherwise `plt.figure(fig.number)`
re-activates the existing figure with that number (creating one with that
number only if none exists), and the title parameter is not applied.  Then
one condensed DSM per sensor is squareformed and drawn into its panel.
Returns the updated registry and the number of the figure drawn into. -/
def plot_dsms_topo (st : PltState) (dsms : NDArray) (nSensors : ℕ)
    (fig : Option ℕ) (title : Option String) : Except PyError (PltState × ℕ) :=
  match fig with
  | none =>
    let f : Figure := ⟨st.nextNum, [], title⟩
    let st1 : PltState := ⟨st.figures ++ [f], st.nextNum + 1⟩
    (drawSensors st.nextNum dsms st1 (List.range nSensors)).map fun s2 => (s2, st.nextNum)
  | some n =>
    match findFig st n with
    | some _ => (drawSensors n dsms st (List.range nSensors)).map fun s2 => (s2, n)
    | none =>
      let f : Figure := ⟨n, [], none⟩
      let st1 : PltState := ⟨st.figures ++ [f], max st.nextNum (n + 1)⟩
      (drawSensors n dsms st1 (List.range nSensors)).map fun s2 => (s2, n)

/-- Reading `time_window[0]` and `time_window[1]` and using them as slice
bounds (viz.py line 225): subscripting a non-subscriptable value is a
`TypeError`, a too-short sequence an `IndexError`, and non-integer slice
bounds a `TypeError` at the slice. -/
def winBounds : PyVal → Except PyError (ℤ × ℤ)
  | .vList xs | .vTuple xs =>
    match xs with
    | .vInt a :: .vInt b :: _ => .ok (a, b)
    | _ :: _ :: _ => .error .typeErrorSlice
    | _ => .error .indexError
  | _ => .error .typeErrorSubscript

/-- `f"From {time_window[0]} to {time_window[1]}"` (viz.py line 228). -/
def winTitle (w0 w1 : ℤ) : String :=
  "From " ++ toString w0 ++ " to " ++ toString w1

/-- The window loop of `plot_dsms_topos` (viz.py lines 224-234): for each
time window, crop the time axis and average it (`windowMean`), read the
figure slot `figs[i]` (subscripting `figs = None` is a `TypeError`, an
exhausted slot list an `IndexError`), delegate to `plot_dsms_topo`, and store
the returned figure back into slot `i`.  Returns the final registry and
either the figure-number list or the first error. -/
def runWindows (nSensors : ℕ) (dsms : NDArray) :
    PltState → List PyVal → Option (List (Option ℕ)) →
    PltState × Except PyError (List (Option ℕ))
  | st, [], none => (st, .ok [])
  | st, [], some fl => (st, .ok fl)
  | st, w :: ws, figsOpt =>
    match winBounds w with
    | .error e => (st, .error e)
    | .ok (w0, w1) =>
      let avg := windowMean dsms w0 w1
      match figsOpt with
      | none => (st, .error .typeErrorNoneSub)
      | some [] => (st, .error .indexError)
      | some (slot :: fl) =>
        match plot_dsms_topo st avg nSensors slot (some (winTitle w0 w1)) with
        | .ok (st2, nfig) =>
          let r := runWindows nSensors dsms st2 ws (some fl)
          (r.1, r.2.map fun rest => some nfig :: rest)
        | .error e => (st, .error e)

/-- `plot_dsms_topos` (viz.py lines 163-236).  The validation is one
`if`/`elif` chain, so at most one branch runs: a non-3-D tensor raises; with
`time_windows=None` the single full-axis window is installed and the chain
ends, so `figs` is never defaulted; a non-list `time_windows`, or one with a
non-list element, raises `TypeError`; only then is `figs` defaulted to one
`None` slot per window or checked for matching length.  `figs` slots are
figure numbers; the sensor count of the recording metadata is `nSensors`. -/
def plot_dsms_topos (st : PltState) (dsms : NDArray) (time_windows : Option PyVal)
    (figs : Option (List (Option ℕ))) (nSensors : ℕ) :
    PltState × Except PyError (List (Option ℕ)) :=
  if dsms.shape.length ≠ 3 then (st, .error .valueErrorTensorShape)
  else
    match time_windows with
    | none =>
      runWindows nSensors dsms st [.vList [.vInt 0, .vInt (Int.ofNat (dsms.dim 1))]] figs
    | some tw =>
      if ¬ tw.isVList then (st, .error .typeErrorTimeWindows)
      else if ¬ tw.elems.all PyVal.isVList then (st, .error .typeErrorTimeWindows)
      else
        match figs with
        | none =>
          runWindows nSensors dsms st tw.elems (some (List.replicate tw.elems.length none))
        | some fl =>
          if tw.elems.length ≠ fl.length then (st, .error .valueErrorFigsArity)
          else runWindows nSensors dsms st tw.elems (some fl)

/-- The `dsms` argument of `plot_dsms`: a bare array or a list of arrays. -/
inductive DSMArg where
  | single (d : NDArray)
  | many (ds : List NDArray)

/-- The `names` argument of `plot_dsms`: `None`, a bare string, or a list. -/
inductive NamesArg where
  | noneArg
  | strArg (s : String)
  | listArg (ns : List String)

/-- `if not isinstance(dsms, list): dsms = [dsms]` (viz.py lines 38-39). -/
def DSMArg.promote : DSMArg → List NDArray
  | .single d => [d]
  | .many ds => ds

/-- `if isinstance(names, str): names = [names]` (viz.py lines 41-42). -/
def NamesArg.promote : NamesArg → Option (List String)
  | .noneArg => none
  | .strArg s => some [s]
  | .listArg ns => some ns

/-- Drawing of one grid cell of `plot_dsms` (viz.py lines 55-60): a 1-D DSM
is squareformed, more than 2 dimensions raises `ValueError`, a 2-D DSM is
shown as is, and a 0-D value slips past both checks only to fail in
`imshow`. -/
def renderCell (dsm : NDArray) : Except PyError (List (List ℚ)) :=
  if dsm.ndim = 1 then
    match squareform dsm.data with
    | some m => .ok m
    | none => .error .valueErrorSquareform
  else if 2 < dsm.ndim then .error .valueErrorGridShape
  else if dsm.ndim = 2 then .ok dsm.toMatrix
  else .error .typeErrorImshow

/-- The rendering the loop attempts at DSM index `i`: `renderCell` applied to
`dsms[i]` (the index is in range at every use site that reaches it). -/
def renderAt (dsms : List NDArray) (i : ℕ) : Except PyError (List (List ℚ)) :=
  renderCell (dsms.getD i ⟨[], []⟩)

/-- One cell of the produced grid: drawn with the heatmap of DSM `idx` (and
its optional name), or hidden via `set_visible(False)`. -/
inductive Cell where
  | drawn (idx : ℕ) (image : List (List ℚ)) (name : Option String)
  | hidden
  deriving DecidableEq, Repr

/-- The DSM index shown in a cell, `none` for a hidden cell. -/
def Cell.idxOf : Cell → Option ℕ
  | .drawn i _ _ => some i
  | .hidden => none

/-- Whether a cell was drawn. -/
def Cell.isDrawn : Cell → Bool
  | .drawn _ _ _ => true
  | .hidden => false

/-- The cell loop of `plot_dsms` (viz.py lines 51-66) over the remaining
`(row, col)` positions, with `c` columns: position `(row, col)` addresses DSM
`i = row * c + col % c`; positions beyond the DSM count are hidden.  An
exception aborts the loop, so only the cells drawn before it are returned
with it. -/
def gridLoop (dsms : List NDArray) (names : Option (List String)) (c : ℕ) :
    List (ℕ × ℕ) → List Cell × Option PyError
  | [] => ([], none)
  | (row, col) :: rest =>
    let i := row * c + col % c
    if i < dsms.length then
      match renderAt dsms i with
      | .error e => ([], some e)
      | .ok img =>
        let r := gridLoop dsms names c rest
        (Cell.drawn i img (names.map fun ns => ns.getD i "") :: r.1, r.2)
    else
      let r := gridLoop dsms names c rest
      (Cell.hidden :: r.1, r.2)

/-- The `(row, col)` positions the nested loops of viz.py lines 51-52 visit,
in order. -/
def cellIndices (r c : ℕ) : List (ℕ × ℕ) :=
  (List.range r).flatMap fun row => (List.range c).map fun col => (row, col)

/-- Outcome of `plot_dsms`: the grid dimensions, the cells processed in loop
order, and the raised exception if any. -/
structure GridResult where
  nRows : ℕ
  nCols : ℕ
  cells : List Cell
  error : Option PyError
  deriving DecidableEq, Repr

/-- `plot_dsms` after argument promotion and the names arity check
(viz.py lines 47-68): `n_cols = int(np.ceil(len(dsms) / n_rows))`, the cell
loop, then `plt.colorbar(im, ...)`, which raises if no cell ever assigned
`im`. -/
def plot_dsms_grid (dsms : List NDArray) (names : Option (List String)) (n_rows : ℕ) :
    GridResult :=
  if n_rows = 0 then ⟨n_rows, 0, [], some .zeroDivisionError⟩
  else
    let c := (dsms.length + n_rows - 1) / n_rows
    let r := gridLoop dsms names c (cellIndices n_rows c)
    match r.2 with
    | some e => ⟨n_rows, c, r.1, some e⟩
    | none =>
      if r.1.any Cell.isDrawn then ⟨n_rows, c, r.1, none⟩
      else ⟨n_rows, c, r.1, some .unboundLocalErrorIm⟩

/-- `plot_dsms` (viz.py lines 8-71): promote a bare DSM and a bare name
string to one-element lists, raise on a name-count mismatch (line 43), then
lay out the grid. -/
def plot_dsms (dsmsArg : DSMArg) (namesArg : NamesArg) (n_rows : ℕ) : GridResult :=
  let dsms := dsmsArg.promote
  match namesArg.promote with
  | some ns =>
    if ns.length ≠ dsms.length then ⟨n_rows, 0, [], some .valueErrorNamesArity⟩
    else plot_dsms_grid dsms (some ns) n_rows
  | none => plot_dsms_grid dsms none n_rows

/-- Whether an `Except` computation succeeded. -/
def exOk {ε α : Type} : Except ε α → Bool
  | .ok _ => true
  | .error _ => false

/-- The cell produced for DSM index `i` when its rendering succeeds (junk
`hidden` otherwise; used only to state the grid loop lemmas). -/
def mkCell (dsms : List NDArray) (names : Option (List String)) (i : ℕ) : Cell :=
  match renderAt dsms i with
  | .ok img => .drawn i img (names.map fun ns => ns.getD i "")
  | .error _ => .hidden

/-- The cell the loop produces at position `q` when no exception occurs. -/
def cellFn (dsms : List NDArray) (names : Option (List String)) (c : ℕ) (q : ℕ × ℕ) : Cell :=
  if q.1 * c + q.2 % c < dsms.length then mkCell dsms names (q.1 * c + q.2 % c) else .hidden

/-- Sample 3-D tensor: 2 sensors, 4 time samples, condensed size 1, values
1, 2, 3, 4 over time for each sensor. -/
def sampleTensor : NDArray := ⟨[2, 4, 1], [1, 2, 3, 4, 1, 2, 3, 4]⟩

/-- The same data as a 2-D array (for the tensor shape check). -/
def sampleTensor2D : NDArray := ⟨[2, 4], [1, 2, 3, 4, 1, 2, 3, 4]⟩

/-- A registry holding two empty figures, numbered 0 and 1. -/
def twoFigState : PltState := ⟨[⟨0, [], none⟩, ⟨1, [], none⟩], 2⟩

/-- A registry holding one empty figure, numbered 0. -/
def oneFigState : PltState := ⟨[⟨0, [], none⟩], 1⟩

/-- A condensed 2-item DSM with single entry 3. -/
def condDSM3 : NDArray := ⟨[1], [3]⟩

/-- A 3-dimensional array, an invalid DSM for the grid renderer. -/
def badDSM : NDArray := ⟨[1, 1, 1], [0]⟩

/-- A 2-D per-sensor DSM array (1 sensor, condensed size 1, value 4). -/
def sensorDSM4 : NDArray := ⟨[1, 1], [4]⟩

/-- A 2-D per-sensor DSM array (1 sensor, condensed size 1, value 7). -/
def sensorDSM7 : NDArray := ⟨[1, 1], [7]⟩

/-! ## General list and arithmetic lemmas -/

theorem getD_map_range {α : Type} (f : ℕ → α) (n m : ℕ) (d : α) :
    ((List.range n).map f).getD m d = if m < n then f m else d := by
  by_cases h : m < n
  · simp [List.getD_eq_getElem?_getD, List.getElem?_range h, h]
  · have hnone : (List.range n)[m]? = none :=
      List.getElem?_eq_none (by simpa using Nat.le_of_not_lt h)
    simp [List.getD_eq_getElem?_getD, hnone, h]

theorem flatMap_range_eq {α : Type} (f : ℕ → ℕ → α) (s e : ℕ) (he : 0 < e) :
    (List.range s).flatMap (fun i => (List.range e).map (f i))
      = (List.range (s * e)).map fun m => f (m / e) (m % e) := by
  induction s with
  | zero => simp
  | succ s ih =>
    rw [List.range_succ, List.flatMap_append, ih, Nat.succ_mul, List.range_add,
      List.map_append]
    congr 1
    simp only [List.flatMap_cons, List.flatMap_nil, List.append_nil, List.map_map]
    apply List.map_congr_left
    intro j hj
    have hje : j < e := List.mem_range.mp hj
    have hd : (s * e + j) / e = s := by
      rw [Nat.add_comm, Nat.mul_comm, Nat.add_mul_div_left _ _ he,
        Nat.div_eq_of_lt hje]
      exact Nat.zero_add s
    have hm : (s * e + j) % e = j := by
      rw [Nat.add_comm, Nat.mul_comm s e, Nat.add_mul_mod_self_left,
        Nat.mod_eq_of_lt hje]
    simp [Function.comp, hd, hm]

theorem cellIndices_eq (r c : ℕ) (hc : 0 < c) :
    cellIndices r c = (List.range (r * c)).map fun m => (m / c, m % c) :=
  flatMap_range_eq (fun row col => (row, col)) r c hc

theorem cellIndices_zero (r : ℕ) : cellIndices r 0 = [] := by
  apply List.flatMap_eq_nil_iff.mpr
  intro x _
  rfl

theorem le_mul_ceilDiv (k r : ℕ) (hr : 0 < r) : k ≤ r * ((k + r - 1) / r) := by
  rcases Nat.eq_zero_or_pos k with hk | hk
  · simp [hk]
  · have hkr : k + r - 1 = (k - 1) + r := by omega
    rw [hkr, Nat.add_div_right _ hr, Nat.mul_succ]
    have h1 := Nat.div_add_mod (k - 1) r
    have h2 : (k - 1) % r < r := Nat.mod_lt _ hr
    omega

/-! ## Grid loop lemmas -/

theorem gridLoop_ok (dsms : List NDArray) (names : Option (List String)) (c : ℕ)
    (ps : List (ℕ × ℕ))
    (h : ∀ q ∈ ps, q.1 * c + q.2 % c < dsms.length →
      exOk (renderAt dsms (q.1 * c + q.2 % c)) = true) :
    gridLoop dsms names c ps = (ps.map (cellFn dsms names c), none) := by
  induction ps with
  | nil => rfl
  | cons q rest ih =>
    obtain ⟨row, col⟩ := q
    have hq := h (row, col) (List.mem_cons_self _ _)
    have hrest := ih fun p hp => h p (List.mem_cons_of_mem _ hp)
    by_cases hi : row * c + col % c < dsms.length
    · cases hok : renderAt dsms (row * c + col % c) with
      | error e =>
        rw [hok] at hq
        exact absurd (hq hi) (by simp [exOk])
      | ok img =>
        simp [gridLoop, hi, hok, hrest, cellFn, mkCell]
    · simp [gridLoop, hi, hrest, cellFn]

theorem gridLoop_err (dsms : List NDArray) (names : Option (List String)) (c : ℕ)
    (ps1 : List (ℕ × ℕ)) (p : ℕ × ℕ) (ps2 : List (ℕ × ℕ)) (e : PyError)
    (h1 : ∀ q ∈ ps1, q.1 * c + q.2 % c < dsms.length →
      exOk (renderAt dsms (q.1 * c + q.2 % c)) = true)
    (hp : p.1 * c + p.2 % c < dsms.length)
    (he : renderAt dsms (p.1 * c + p.2 % c) = .error e) :
    gridLoop dsms names c (ps1 ++ p :: ps2) = (ps1.map (cellFn dsms names c), some e) := by
  induction ps1 with
  | nil =>
    obtain ⟨row, col⟩ := p
    simp only [List.nil_append, List.map_nil]
    simp [gridLoop, hp, he]
  | cons q rest ih =>
    obtain ⟨row, col⟩ := q
    have hq := h1 (row, col) (List.mem_cons_self _ _)
    have hrest := ih fun r hr => h1 r (List.mem_cons_of_mem _ hr)
    by_cases hi : row * c + col % c < dsms.length
    · cases hok : renderAt dsms (row * c + col % c) with
      | error e2 =>
        rw [hok] at hq
        exact absurd (hq hi) (by simp [exOk])
      | ok img =>
        simp [gridLoop, hi, hok, hrest, cellFn, mkCell]
    · simp [gridLoop, hi, hrest, cellFn]

theorem renderCell_error_mem (d : NDArray) (e : PyError)
    (h : renderCell d = .error e) :
    e = .valueErrorSquareform ∨ e = .valueErrorGridShape ∨ e = .typeErrorImshow := by
  unfold renderCell at h
  split at h
  · cases hsq : squareform d.data with
    | some m => rw [hsq] at h; exact absurd h (by simp)
    | none => rw [hsq] at h; exact Or.inl (by injection h with h2; exact h2.symm)
  · split at h
    · exact Or.inr (Or.inl (by injection h with h2; exact h2.symm))
    · split at h
      · exact absurd h (by simp)
      · exact Or.inr (Or.inr (by injection h with h2; exact h2.symm))

theorem gridLoop_error_mem (dsms : List NDArray) (names : Option (List String))
    (c : ℕ) (ps : List (ℕ × ℕ)) (e : PyError)
    (h : (gridLoop dsms names c ps).2 = some e) :
    e = .valueErrorSquareform ∨ e = .valueErrorGridShape ∨ e = .typeErrorImshow := by
  induction ps with
  | nil => exact absurd h (by simp [gridLoop])
  | cons q rest ih =>
    obtain ⟨row, col⟩ := q
    by_cases hi : row * c + col % c < dsms.length
    · cases hok : renderAt dsms (row * c + col % c) with
      | error e2 =>
        have : e2 = e := by
          simp [gridLoop, hi, hok] at h
          exact h
        exact this ▸ renderCell_error_mem _ _ hok
      | ok img =>
        apply ih
        simpa [gridLoop, hi, hok] using h
    · apply ih
      simpa [gridLoop, hi] using h

theorem plot_dsms_grid_error_ne_arity (dsms : List NDArray)
    (names : Option (List String)) (n_rows : ℕ) :
    (plot_dsms_grid dsms names n_rows).error ≠ some .valueErrorNamesArity := by
  unfold plot_dsms_grid
  by_cases h0 : n_rows = 0
  · simp [h0]
  · simp only [h0, ite_false]
    cases hr : (gridLoop dsms names ((dsms.length + n_rows - 1) / n_rows)
        (cellIndices n_rows ((dsms.length + n_rows - 1) / n_rows))).2 with
    | none =>
      simp only [hr]
      split <;> simp
    | some e =>
      simp only [hr]
      rcases gridLoop_error_mem _ _ _ _ _ hr with h | h | h <;> simp [h]

/-! ## Figure registry lemmas -/

theorem drawSensors_append (n : ℕ) (a : NDArray) (is1 is2 : List ℕ) (st : PltState) :
    drawSensors n a st (is1 ++ is2)
      = match drawSensors n a st is1 with
        | .ok st2 => drawSensors n a st2 is2
        | .error e => .error e := by
  induction is1 generalizing st with
  | nil => simp [drawSensors]
  | cons i is ih =>
    simp only [List.cons_append, drawSensors]
    by_cases hi : i < a.dim 0
    · simp only [hi, ite_true]
      cases squareform (a.rowOf i) with
      | some sq => exact ih _
      | none => rfl
    · simp [hi]

theorem updateFig_numbers (st : PltState) (n : ℕ) (g : Figure → Figure)
    (hg : ∀ f, (g f).number = f.number) :
    (updateFig st n g).figures.map Figure.number = st.figures.map Figure.number := by
  simp only [updateFig, List.map_map]
  apply List.map_congr_left
  intro f _
  by_cases h : f.number = n <;> simp [Function.comp, h, hg]

theorem find?_map_update (l : List Figure) (n : ℕ) (g : Figure → Figure)
    (hg : ∀ f, (g f).number = f.number) :
    ((l.map fun f => if f.number = n then g f else f).find? fun f => f.number == n)
      = (l.find? fun f => f.number == n).map g := by
  induction l with
  | nil => rfl
  | cons f fs ih =>
    by_cases h : f.number = n
    · simp only [List.map_cons, h, ite_true]
      simp [List.find?_cons, hg, h]
    · simp only [List.map_cons, h, ite_false]
      simp [List.find?_cons, h, ih]

theorem findFig_updateFig_self (st : PltState) (n : ℕ) (g : Figure → Figure)
    (hg : ∀ f, (g f).number = f.number) :
    findFig (updateFig st n g) n = (findFig st n).map g :=
  find?_map_update st.figures n g hg

theorem getSlot_setSlot (ps : List (Option (List (List ℚ)))) (i j : ℕ)
    (m : List (List ℚ)) :
    getSlot (setSlot ps i m) j = if j = i then some m else getSlot ps j := by
  unfold getSlot setSlot
  have hlen : i < (ps ++ List.replicate (i + 1 - ps.length) none).length := by
    simp only [List.length_append, List.length_replicate]
    omega
  by_cases hj : j = i
  · subst hj
    simp only [List.getD_eq_getElem?_getD, List.getElem?_set, hlen, ite_true,
      List.length_append, List.length_replicate]
    rw [if_pos (show j < ps.length + (j + 1 - ps.length) by omega)]
    rfl
  · have hne : ¬(i = j) := fun h => hj h.symm
    simp only [List.getD_eq_getElem?_getD, List.getElem?_set, hne, ite_false, hj]
    by_cases hlt : j < ps.length
    · simp [List.getElem?_append, hlt]
    · have h1 : ps[j]? = none := List.getElem?_eq_none (Nat.le_of_not_lt hlt)
      simp only [List.getElem?_append, hlt, ite_false, h1]
      rw [List.getElem?_replicate]
      split <;> simp

theorem drawSensors_range (n : ℕ) (a : NDArray) (m : ℕ) (st : PltState) (f : Figure)
    (hf : findFig st n = some f)
    (hok : ∀ i, i < m → i < a.dim 0 ∧ (squareform (a.rowOf i)).isSome = true) :
    ∃ st2 f2,
      drawSensors n a st (List.range m) = .ok st2 ∧
      st2.figures.map Figure.number = st.figures.map Figure.number ∧
      st2.nextNum = st.nextNum ∧
      findFig st2 n = some f2 ∧
      f2.number = f.number ∧ f2.title = f.title ∧
      ∀ i, i < m → getSlot f2.panels i = squareform (a.rowOf i) := by
  induction m with
  | zero =>
    exact ⟨st, f, rfl, rfl, rfl, hf, rfl, rfl, fun i hi => absurd hi (Nat.not_lt_zero i)⟩
  | succ m ih =>
    obtain ⟨st2, f2, hdraw, hnums, hnext, hfind, hnum, htitle, hpanels⟩ :=
      ih fun i hi => hok i (Nat.lt_succ_of_lt hi)
    obtain ⟨hdim, hsq⟩ := hok m (Nat.lt_succ_self m)
    obtain ⟨sq, hsq2⟩ := Option.isSome_iff_exists.mp hsq
    have hg : ∀ fig : Figure,
        (({ fig with panels := setSlot fig.panels m sq } : Figure)).number = fig.number :=
      fun _ => rfl
    refine ⟨updateFig st2 n fun fig => { fig with panels := setSlot fig.panels m sq },
      { f2 with panels := setSlot f2.panels m sq }, ?_, ?_, ?_, ?_, hnum, htitle, ?_⟩
    · rw [List.range_succ, drawSensors_append, hdraw]
      simp [drawSensors, hdim, hsq2]
    · rw [updateFig_numbers _ _ _ hg, hnums]
    · exact hnext
    · rw [findFig_updateFig_self _ _ _ hg, hfind, Option.map_some']
    · intro i hi
      show getSlot (setSlot f2.panels m sq) i = squareform (a.rowOf i)
      rw [getSlot_setSlot]
      by_cases him : i = m
      · rw [if_pos him, him, hsq2]
      · rw [if_neg him]
        exact hpanels i (by omega)

theorem plot_dsms_topo_reuse (st : PltState) (a : NDArray) (nS n : ℕ)
    (title : Option String) (f : Figure) (hf : findFig st n = some f)
    (hok : ∀ i, i < nS → i < a.dim 0 ∧ (squareform (a.rowOf i)).isSome = true) :
    ∃ st2 f2,
      plot_dsms_topo st a nS (some n) title = .ok (st2, n) ∧
      st2.figures.map Figure.number = st.figures.map Figure.number ∧
      st2.nextNum = st.nextNum ∧
      findFig st2 n = some f2 ∧ f2.title = f.title ∧
      ∀ i, i < nS → getSlot f2.panels i = squareform (a.rowOf i) := by
  obtain ⟨st2, f2, hdraw, hnums, hnext, hfind, hnum, htitle, hpanels⟩ :=
    drawSensors_range n a nS st f hf hok
  refine ⟨st2, f2, ?_, hnums, hnext, hfind, htitle, hpanels⟩
  simp [plot_dsms_topo, hf, hdraw, Except.map]

theorem plot_dsms_topo_create (st : PltState) (a : NDArray) (nS : ℕ)
    (title : Option String)
    (hfresh : findFig st st.nextNum = none)
    (hok : ∀ i, i < nS → i < a.dim 0 ∧ (squareform (a.rowOf i)).isSome = true) :
    ∃ st2 f2,
      plot_dsms_topo st a nS none title = .ok (st2, st.nextNum) ∧
      findFig st2 st.nextNum = some f2 ∧
      f2.title = title ∧
      st2.figures.map Figure.number = st.figures.map Figure.number ++ [st.nextNum] ∧
      ∀ i, i < nS → getSlot f2.panels i = squareform (a.rowOf i) := by
  have hfind1 : findFig ⟨st.figures ++ [⟨st.nextNum, [], title⟩], st.nextNum + 1⟩
      st.nextNum = some ⟨st.nextNum, [], title⟩ := by
    unfold findFig at hfresh ⊢
    rw [List.find?_append, hfresh]
    simp
  obtain ⟨st2, f2, hdraw, hnums, hnext, hfind, hnum, htitle, hpanels⟩ :=
    drawSensors_range st.nextNum a nS
      ⟨st.figures ++ [⟨st.nextNum, [], title⟩], st.nextNum + 1⟩
      ⟨st.nextNum, [], title⟩ hfind1 hok
  refine ⟨st2, f2, ?_, hfind, htitle, ?_, hpanels⟩
  · simp [plot_dsms_topo, hdraw, Except.map]
  · rw [hnums]
    simp

theorem except_map_error {ε α β : Type} (g : α → β) (x : Except ε α) (e : ε)
    (h : x.map g = .error e) : x = .error e := by
  cases x with
  | ok v => exact absurd h (by simp [Except.map])
  | error e2 => simpa [Except.map] using h

theorem drawSensors_error_mem (n : ℕ) (a : NDArray) (is : List ℕ) (st : PltState)
    (e : PyError) (h : drawSensors n a st is = .error e) :
    e = .valueErrorSquareform ∨ e = .indexError := by
  induction is generalizing st with
  | nil => exact absurd h (by simp [drawSensors])
  | cons i is ih =>
    simp only [drawSensors] at h
    by_cases hi : i < a.dim 0
    · rw [if_pos hi] at h
      cases hsq : squareform (a.rowOf i) with
      | some sq =>
        rw [hsq] at h
        exact ih _ h
      | none =>
        rw [hsq] at h
        exact Or.inl (by injection h with h2; exact h2.symm)
    · rw [if_neg hi] at h
      exact Or.inr (by injection h with h2; exact h2.symm)

theorem plot_dsms_topo_error_mem (st : PltState) (a : NDArray) (nS : ℕ)
    (fig : Option ℕ) (title : Option String) (e : PyError)
    (h : plot_dsms_topo st a nS fig title = .error e) :
    e = .valueErrorSquareform ∨ e = .indexError := by
  cases fig with
  | none =>
    simp only [plot_dsms_topo] at h
    exact drawSensors_error_mem _ _ _ _ _ (except_map_error _ _ _ h)
  | some n =>
    cases hfind : findFig st n with
    | some f =>
      simp only [plot_dsms_topo, hfind] at h
      exact drawSensors_error_mem _ _ _ _ _ (except_map_error _ _ _ h)
    | none =>
      simp only [plot_dsms_topo, hfind] at h
      exact drawSensors_error_mem _ _ _ _ _ (except_map_error _ _ _ h)

theorem winBounds_error_mem (w : PyVal) (e : PyError) (h : winBounds w = .error e) :
    e = .typeErrorSlice ∨ e = .indexError ∨ e = .typeErrorSubscript := by
  cases w with
  | vInt n =>
    simp only [winBounds, Except.error.injEq] at h
    exact Or.inr (Or.inr h.symm)
  | vStr s =>
    simp only [winBounds, Except.error.injEq] at h
    exact Or.inr (Or.inr h.symm)
  | vList xs =>
    rcases xs with _ | ⟨a, _ | ⟨b, rest⟩⟩
    · simp only [winBounds, Except.error.injEq] at h
      exact Or.inr (Or.inl h.symm)
    · simp only [winBounds, Except.error.injEq] at h
      exact Or.inr (Or.inl h.symm)
    · cases a <;> cases b <;>
        simp only [winBounds, Except.error.injEq] at h <;>
        first
        | exact Or.inl h.symm
        | exact absurd h (by simp)
  | vTuple xs =>
    rcases xs with _ | ⟨a, _ | ⟨b, rest⟩⟩
    · simp only [winBounds, Except.error.injEq] at h
      exact Or.inr (Or.inl h.symm)
    · simp only [winBounds, Except.error.injEq] at h
      exact Or.inr (Or.inl h.symm)
    · cases a <;> cases b <;>
        simp only [winBounds, Except.error.injEq] at h <;>
        first
        | exact Or.inl h.symm
        | exact absurd h (by simp)

theorem runWindows_error_mem (nS : ℕ) (dsms : NDArray) (ws : List PyVal)
    (st : PltState) (figsOpt : Option (List (Option ℕ))) (e : PyError)
    (h : (runWindows nS dsms st ws figsOpt).2 = .error e) :
    e = .typeErrorSlice ∨ e = .indexError ∨ e = .typeErrorSubscript ∨
      e = .typeErrorNoneSub ∨ e = .valueErrorSquareform := by
  induction ws generalizing st figsOpt with
  | nil => cases figsOpt <;> simp [runWindows] at h
  | cons w ws ih =>
    cases hwb : winBounds w with
    | error e2 =>
      simp only [runWindows, hwb] at h
      rcases winBounds_error_mem w e2 hwb with h2 | h2 | h2 <;>
        rw [Except.error.injEq] at h <;> subst h <;> simp [h2]
    | ok p =>
      obtain ⟨w0, w1⟩ := p
      cases figsOpt with
      | none =>
        simp only [runWindows, hwb, Except.error.injEq] at h
        simp [← h]
      | some fl =>
        cases fl with
        | nil =>
          simp only [runWindows, hwb, Except.error.injEq] at h
          simp [← h]
        | cons slot fl2 =>
          cases htopo : plot_dsms_topo st (windowMean dsms w0 w1) nS slot
              (some (winTitle w0 w1)) with
          | ok pr =>
            obtain ⟨st2, nfig⟩ := pr
            simp only [runWindows, hwb, htopo] at h
            exact ih _ _ (except_map_error _ _ _ h)
          | error e2 =>
            simp only [runWindows, hwb, htopo, Except.error.injEq] at h
            rcases plot_dsms_topo_error_mem _ _ _ _ _ _ htopo with h2 | h2 <;>
              subst h <;> simp [h2]

theorem squareform_isSome (d : List ℚ) :
    (squareform d).isSome = (squareformDim d.length).isSome := by
  unfold squareform
  cases squareformDim d.length <;> simp

/-! ## Claim theorems -/

/-- C8: `plot_dsms_topos` called with a tensor that is not exactly
3-dimensional raises the ShapeError (`ValueError`, viz.py line 208)
immediately: the returned registry is the input registry unchanged, so no
window was processed, nothing was drawn, and caller-supplied figures are
untouched. -/
theorem tensor_shape_check_first (st : PltState) (dsms : NDArray)
    (tw : Option PyVal) (figs : Option (List (Option ℕ))) (nS : ℕ)
    (h : dsms.shape.length ≠ 3) :
    plot_dsms_topos st dsms tw figs nS = (st, .error .valueErrorTensorShape) := by
  simp [plot_dsms_topos, h]

/-- C8 witness: a 2-D tensor is rejected with the registry untouched. -/
theorem tensor_shape_check_first_witness :
    sampleTensor2D.shape.length ≠ 3 ∧
      plot_dsms_topos emptyPlt sampleTensor2D none none 2
        = (emptyPlt, .error .valueErrorTensorShape) :=
  ⟨by decide, tensor_shape_check_first emptyPlt sampleTensor2D none none 2 (by decide)⟩

/-- C1 (documents the code bug): with `time_windows=None` and `figs=None`
(the documented defaults), `plot_dsms_topos` does not produce a figure at
all: because the `elif` chain ends after installing the default window,
`figs` is never initialised, and the loop body subscripts `None`
(`TypeError`), instead of returning one figure with the full-axis mean. -/
theorem default_windows_default_figs_crash :
    plot_dsms_topos emptyPlt sampleTensor none none 2
      = (emptyPlt, .error .typeErrorNoneSub) := rfl

/-- C4 (documents the code bug): with `time_windows=None` (one default
window) and a caller-supplied `figs` of length 2, `plot_dsms_topos` raises no
arity error: the `elif` chain never reaches the length check, the single
window is rendered into `figs[0]`, and the call returns successfully. -/
theorem default_windows_skips_figs_arity_check :
    (plot_dsms_topos twoFigState sampleTensor none (some [some 0, some 1]) 2).2
      = .ok [some 0, some 1] := by
  have hok : ∀ i, i < 2 → i < (windowMean sampleTensor 0 4).dim 0 ∧
      (squareform ((windowMean sampleTensor 0 4).rowOf i)).isSome = true := by
    intro i hi
    have hd0 : (windowMean sampleTensor 0 4).dim 0 = 2 := rfl
    refine ⟨by omega, ?_⟩
    rw [squareform_isSome]
    have hlen : ((windowMean sampleTensor 0 4).rowOf i).length = 1 := by
      simp only [NDArray.rowOf, List.length_map, List.length_range]
      rfl
    rw [hlen]
    decide
  have hf : findFig twoFigState 0 = some ⟨0, [], none⟩ := rfl
  obtain ⟨st2, f2, htopo, hnums, hnext, hfind, htitle, hpanels⟩ :=
    plot_dsms_topo_reuse twoFigState (windowMean sampleTensor 0 4) 2 0
      (some (winTitle 0 4)) ⟨0, [], none⟩ hf hok
  show (runWindows 2 sampleTensor twoFigState
      [.vList [.vInt 0, .vInt 4]] (some [some 0, some 1])).2 = .ok [some 0, some 1]
  simp only [runWindows, winBounds, htopo]
  rfl

/-- C2: for a 3-D tensor and a non-`None` `time_windows` argument, the
`TypeError` of viz.py lines 213-216 is raised if and only if the structural
check fails: the top level must be a Python list and every element must be a
Python list.  In particular a pair supplied as a tuple fails the check, and
no well-formedness of the pairs beyond list-ness is inspected. -/
theorem time_windows_typeerror_iff_structural (st : PltState) (dsms : NDArray)
    (v : PyVal) (figs : Option (List (Option ℕ))) (nS : ℕ)
    (h3 : dsms.shape.length = 3) :
    (plot_dsms_topos st dsms (some v) figs nS).2 = .error .typeErrorTimeWindows
      ↔ ¬(v.isVList = true ∧ v.elems.all PyVal.isVList = true) := by
  have hcond : ¬(dsms.shape.length ≠ 3) := by simp [h3]
  by_cases h1 : v.isVList = true
  · by_cases h2 : v.elems.all PyVal.isVList = true
    · have hres : (plot_dsms_topos st dsms (some v) figs nS).2
          ≠ .error .typeErrorTimeWindows := by
        simp only [plot_dsms_topos, hcond, ite_false, h1, h2, not_true,
          Bool.true_eq_false, if_false]
        cases figs with
        | none =>
          intro hcontra
          rcases runWindows_error_mem _ _ _ _ _ _ hcontra with h | h | h | h | h <;>
            exact absurd h (by decide)
        | some fl =>
          show ((if v.elems.length ≠ fl.length
              then (st, Except.error PyError.valueErrorFigsArity)
              else runWindows nS dsms st v.elems (some fl)).2)
            ≠ Except.error PyError.typeErrorTimeWindows
          by_cases hlen : v.elems.length ≠ fl.length
          · rw [if_pos hlen]
            intro hcontra
            have h5 : PyError.valueErrorFigsArity = PyError.typeErrorTimeWindows :=
              (Except.error.injEq _ _).mp hcontra
            exact absurd h5 (by decide)
          · rw [if_neg hlen]
            intro hcontra
            rcases runWindows_error_mem _ _ _ _ _ _ hcontra with h | h | h | h | h <;>
              exact absurd h (by decide)
      exact iff_of_false hres (by simp [h1, h2])
    · have hres : (plot_dsms_topos st dsms (some v) figs nS).2
          = .error .typeErrorTimeWindows := by
        simp [plot_dsms_topos, hcond, h1, h2]
      exact iff_of_true hres (by simp [h2])
  · have hres : (plot_dsms_topos st dsms (some v) figs nS).2
        = .error .typeErrorTimeWindows := by
      simp [plot_dsms_topos, hcond, h1]
    exact iff_of_true hres (by simp [h1])

/-- C2 witness: a window pair supplied as a tuple is rejected by the
structural check of a 3-D tensor call. -/
theorem time_windows_typeerror_iff_structural_witness :
    sampleTensor.shape.length = 3 ∧
      ((plot_dsms_topos emptyPlt sampleTensor
          (some (.vList [.vTuple [.vInt 0, .vInt 1]])) none 2).2
          = .error .typeErrorTimeWindows
        ↔ ¬((PyVal.vList [.vTuple [.vInt 0, .vInt 1]]).isVList = true ∧
            (PyVal.vList [.vTuple [.vInt 0, .vInt 1]]).elems.all PyVal.isVList = true)) :=
  ⟨rfl, time_windows_typeerror_iff_structural emptyPlt sampleTensor
    (.vList [.vTuple [.vInt 0, .vInt 1]]) none 2 rfl⟩

theorem divmod_index (m c : ℕ) : m / c * c + m % c % c = m := by
  rw [Nat.mod_mod_of_dvd m (dvd_refl c), Nat.mul_comm]
  exact Nat.div_add_mod m c

theorem cellFn_range_getD (dsms : List NDArray) (names : Option (List String))
    (c m : ℕ) :
    cellFn dsms names c (m / c, m % c)
      = if m < dsms.length then mkCell dsms names m else .hidden := by
  show (if m / c * c + m % c % c < dsms.length
      then mkCell dsms names (m / c * c + m % c % c) else .hidden) = _
  rw [divmod_index]

theorem mkCell_idxOf (dsms : List NDArray) (names : Option (List String)) (i : ℕ)
    (h : exOk (renderAt dsms i) = true) :
    (mkCell dsms names i).idxOf = some i := by
  unfold mkCell
  cases hok : renderAt dsms i with
  | ok img => rfl
  | error e =>
    rw [hok] at h
    simp [exOk] at h

theorem mkCell_isDrawn (dsms : List NDArray) (names : Option (List String)) (i : ℕ)
    (h : exOk (renderAt dsms i) = true) :
    (mkCell dsms names i).isDrawn = true := by
  unfold mkCell
  cases hok : renderAt dsms i with
  | ok img => rfl
  | error e =>
    rw [hok] at h
    simp [exOk] at h

theorem ceilDiv_least (k r : ℕ) (hr : 0 < r) :
    k ≤ r * ((k + r - 1) / r) ∧ ∀ q, k ≤ r * q → (k + r - 1) / r ≤ q := by
  refine ⟨le_mul_ceilDiv k r hr, fun q hq => ?_⟩
  rw [Nat.div_le_iff_le_mul_add_pred hr]
  omega

/-- C7: `plot_dsms` raises the names ArityError (`ValueError`, viz.py line
44) iff a names argument is supplied whose promoted length differs from the
promoted DSM count; a single DSM is promoted to a one-element list, a bare
string name to a one-element name list, and `names=None` never raises it. -/
theorem grid_names_arity_iff (dsmsArg : DSMArg) (namesArg : NamesArg) (n_rows : ℕ) :
    (plot_dsms dsmsArg namesArg n_rows).error = some .valueErrorNamesArity
      ↔ ∃ ns, namesArg.promote = some ns ∧ ns.length ≠ dsmsArg.promote.length := by
  cases hn : namesArg.promote with
  | none =>
    constructor
    · intro h
      simp only [plot_dsms, hn] at h
      exact absurd h (plot_dsms_grid_error_ne_arity _ _ _)
    · rintro ⟨ns, hns, _⟩
      exact Option.noConfusion hns
  | some ns =>
    by_cases hlen : ns.length ≠ dsmsArg.promote.length
    · constructor
      · intro _
        exact ⟨ns, rfl, hlen⟩
      · intro _
        simp only [plot_dsms, hn]
        rw [if_pos hlen]
    · constructor
      · intro h
        simp only [plot_dsms, hn] at h
        rw [if_neg hlen] at h
        exact absurd h (plot_dsms_grid_error_ne_arity _ _ _)
      · rintro ⟨ns2, hns2, hlen2⟩
        injection hns2 with hns3
        rw [← hns3] at hlen2
        exact absurd hlen2 hlen

/-- C10: `plot_dsms` on an empty DSM list is a violated implicit
precondition: no cell is ever processed, and the call fails at the colorbar
with the unnamed `UnboundLocalError` (the local `im` was never assigned),
rather than returning a figure or raising one of the named errors. -/
theorem grid_empty_dsms_unbound_im (n_rows : ℕ) (hr : 0 < n_rows) :
    plot_dsms (.many []) .noneArg n_rows
      = ⟨n_rows, 0, [], some .unboundLocalErrorIm⟩ := by
  have h0 : ¬(n_rows = 0) := by omega
  have hc : (n_rows - 1) / n_rows = 0 := Nat.div_eq_of_lt (by omega)
  simp [plot_dsms, NamesArg.promote, DSMArg.promote, plot_dsms_grid, h0, hc,
    cellIndices_zero, gridLoop]

/-- C10 witness: the default single row. -/
theorem grid_empty_dsms_unbound_im_witness :
    0 < 1 ∧ plot_dsms (.many []) .noneArg 1
      = ⟨1, 0, [], some .unboundLocalErrorIm⟩ :=
  ⟨by decide, grid_empty_dsms_unbound_im 1 (by decide)⟩

/-- C3 counterexample: with a valid condensed DSM first and a 3-D array
second, `plot_dsms` raises the ShapeError only after the first grid cell has
already been drawn, so the check is not eager and drawing does happen before
the raise. -/
theorem grid_shape_error_not_eager_counterexample :
    (plot_dsms (.many [condDSM3, badDSM]) .noneArg 1).error
        = some .valueErrorGridShape ∧
      (plot_dsms (.many [condDSM3, badDSM]) .noneArg 1).cells.length = 1 ∧
      ((plot_dsms (.many [condDSM3, badDSM]) .noneArg 1).cells.getD 0
          .hidden).isDrawn = true := by
  refine ⟨rfl, rfl, rfl⟩

/-- C3 amended: the ShapeError for a more-than-2-D DSM is raised from inside
the cell loop, when the row-major traversal reaches the offending DSM index:
every cell of a smaller index has been drawn by then, and the error carries
away the grid with exactly those cells populated. -/
theorem grid_shape_error_at_offending_cell (dsms : List NDArray) (n_rows j : ℕ)
    (hr : 0 < n_rows) (hj : j < dsms.length)
    (hprev : ∀ i, i < j → exOk (renderAt dsms i) = true)
    (hbad : renderAt dsms j = .error .valueErrorGridShape) :
    (plot_dsms (.many dsms) .noneArg n_rows).error = some .valueErrorGridShape ∧
      (plot_dsms (.many dsms) .noneArg n_rows).cells.length = j ∧
      ∀ m, m < j →
        ((plot_dsms (.many dsms) .noneArg n_rows).cells.getD m .hidden).idxOf
          = some m := by
  have hk : 0 < dsms.length := Nat.lt_of_le_of_lt (Nat.zero_le j) hj
  have hc : 0 < (dsms.length + n_rows - 1) / n_rows :=
    Nat.div_pos (by omega) hr
  have hjrc : j < n_rows * ((dsms.length + n_rows - 1) / n_rows) :=
    Nat.lt_of_lt_of_le hj (le_mul_ceilDiv _ _ hr)
  have hsplit : List.range (n_rows * ((dsms.length + n_rows - 1) / n_rows))
      = List.range j ++ j ::
          ((List.range (n_rows * ((dsms.length + n_rows - 1) / n_rows) - (j + 1))).map
            fun x => (j + 1) + x) := by
    have h1 : n_rows * ((dsms.length + n_rows - 1) / n_rows)
        = (j + 1) + (n_rows * ((dsms.length + n_rows - 1) / n_rows) - (j + 1)) := by
      omega
    conv_lhs => rw [h1]
    rw [List.range_add, List.range_succ, List.append_assoc, List.singleton_append]
  have hgrid : gridLoop dsms none ((dsms.length + n_rows - 1) / n_rows)
      (cellIndices n_rows ((dsms.length + n_rows - 1) / n_rows))
      = (((List.range j).map fun m =>
            (m / ((dsms.length + n_rows - 1) / n_rows),
             m % ((dsms.length + n_rows - 1) / n_rows))).map
          (cellFn dsms none ((dsms.length + n_rows - 1) / n_rows)),
         some .valueErrorGridShape) := by
    rw [cellIndices_eq _ _ hc, hsplit, List.map_append, List.map_cons]
    apply gridLoop_err
    · intro q hq hqlen
      obtain ⟨m, hm, rfl⟩ := List.mem_map.mp hq
      have hmj : m < j := List.mem_range.mp hm
      show exOk (renderAt dsms
        (m / ((dsms.length + n_rows - 1) / n_rows)
            * ((dsms.length + n_rows - 1) / n_rows)
          + m % ((dsms.length + n_rows - 1) / n_rows)
            % ((dsms.length + n_rows - 1) / n_rows))) = true
      rw [divmod_index]
      exact hprev m hmj
    · show j / ((dsms.length + n_rows - 1) / n_rows)
            * ((dsms.length + n_rows - 1) / n_rows)
          + j % ((dsms.length + n_rows - 1) / n_rows)
            % ((dsms.length + n_rows - 1) / n_rows) < dsms.length
      rw [divmod_index]
      exact hj
    · show renderAt dsms
          (j / ((dsms.length + n_rows - 1) / n_rows)
              * ((dsms.length + n_rows - 1) / n_rows)
            + j % ((dsms.length + n_rows - 1) / n_rows)
              % ((dsms.length + n_rows - 1) / n_rows))
        = .error .valueErrorGridShape
      rw [divmod_index]
      exact hbad
  have h0 : ¬(n_rows = 0) := by omega
  have hmain : plot_dsms (.many dsms) .noneArg n_rows
      = ⟨n_rows, (dsms.length + n_rows - 1) / n_rows,
         ((List.range j).map fun m =>
            (m / ((dsms.length + n_rows - 1) / n_rows),
             m % ((dsms.length + n_rows - 1) / n_rows))).map
          (cellFn dsms none ((dsms.length + n_rows - 1) / n_rows)),
         some .valueErrorGridShape⟩ := by
    simp only [plot_dsms, NamesArg.promote, DSMArg.promote, plot_dsms_grid, h0,
      ite_false, hgrid]
  refine ⟨by rw [hmain], by rw [hmain]; simp, ?_⟩
  intro m hm
  rw [hmain]
  show ((((List.range j).map fun m =>
      (m / ((dsms.length + n_rows - 1) / n_rows),
       m % ((dsms.length + n_rows - 1) / n_rows))).map
      (cellFn dsms none ((dsms.length + n_rows - 1) / n_rows))).getD m
      .hidden).idxOf = some m
  rw [List.map_map, getD_map_range, if_pos hm]
  show (cellFn dsms none ((dsms.length + n_rows - 1) / n_rows)
      (m / ((dsms.length + n_rows - 1) / n_rows),
       m % ((dsms.length + n_rows - 1) / n_rows))).idxOf = some m
  rw [cellFn_range_getD, if_pos (Nat.lt_trans hm hj)]
  exact mkCell_idxOf dsms none m (hprev m hm)

/-- C3 amended witness: the counterexample pair, offending index 1. -/
theorem grid_shape_error_at_offending_cell_witness :
    (0 < 1 ∧ 1 < [condDSM3, badDSM].length ∧
        (∀ i, i < 1 → exOk (renderAt [condDSM3, badDSM] i) = true) ∧
        renderAt [condDSM3, badDSM] 1 = .error .valueErrorGridShape) ∧
      ((plot_dsms (.many [condDSM3, badDSM]) .noneArg 1).error
          = some .valueErrorGridShape ∧
        (plot_dsms (.many [condDSM3, badDSM]) .noneArg 1).cells.length = 1 ∧
        ∀ m, m < 1 →
          ((plot_dsms (.many [condDSM3, badDSM]) .noneArg 1).cells.getD m
              .hidden).idxOf = some m) :=
  ⟨⟨by decide, by decide, by decide, rfl⟩,
    grid_shape_error_at_offending_cell [condDSM3, badDSM] 1 1 (by decide)
      (by decide) (by decide) rfl⟩

/-- C6: for a list of k renderable DSMs (k ≥ 1) and r ≥ 1 rows, `plot_dsms`
succeeds with a grid of `(k + r - 1) / r` columns — the least `q` with
`r * q ≥ k`, i.e. `ceil(k / r)` — and `r * ceil(k / r)` cells in row-major
order, of which exactly the first k are drawn (cell m shows DSM m) and every
later cell is hidden, with no error for the surplus cells. -/
theorem grid_layout_cols_visible_hidden (dsms : List NDArray) (n_rows : ℕ)
    (hr : 0 < n_rows) (hk : 0 < dsms.length)
    (hok : ∀ i, i < dsms.length → exOk (renderAt dsms i) = true) :
    (plot_dsms (.many dsms) .noneArg n_rows).error = none ∧
      (plot_dsms (.many dsms) .noneArg n_rows).nCols
        = (dsms.length + n_rows - 1) / n_rows ∧
      (dsms.length ≤ n_rows * ((dsms.length + n_rows - 1) / n_rows) ∧
        ∀ q, dsms.length ≤ n_rows * q → (dsms.length + n_rows - 1) / n_rows ≤ q) ∧
      (plot_dsms (.many dsms) .noneArg n_rows).cells.length
        = n_rows * ((dsms.length + n_rows - 1) / n_rows) ∧
      ∀ m, m < n_rows * ((dsms.length + n_rows - 1) / n_rows) →
        ((plot_dsms (.many dsms) .noneArg n_rows).cells.getD m .hidden)
            = (if m < dsms.length then mkCell dsms none m else .hidden) ∧
          (m < dsms.length →
            ((plot_dsms (.many dsms) .noneArg n_rows).cells.getD m .hidden).idxOf
              = some m) := by
  obtain ⟨c, hcdef⟩ : ∃ c, c = (dsms.length + n_rows - 1) / n_rows := ⟨_, rfl⟩
  rw [← hcdef]
  have hc : 0 < c := hcdef ▸ Nat.div_pos (by omega) hr
  have hgrid : gridLoop dsms none c (cellIndices n_rows c)
      = (((List.range (n_rows * c)).map fun m => (m / c, m % c)).map
          (cellFn dsms none c), none) := by
    rw [cellIndices_eq _ _ hc]
    apply gridLoop_ok
    intro q hq hqlen
    obtain ⟨m, hm, rfl⟩ := List.mem_map.mp hq
    have hidx : (m / c, m % c).1 * c + (m / c, m % c).2 % c = m := divmod_index m c
    rw [hidx] at hqlen ⊢
    exact hok m hqlen
  have hdrawn : (((List.range (n_rows * c)).map fun m => (m / c, m % c)).map
      (cellFn dsms none c)).any Cell.isDrawn = true := by
    rw [List.any_eq_true]
    refine ⟨cellFn dsms none c (0 / c, 0 % c),
      List.mem_map_of_mem _ (List.mem_map_of_mem _
        (List.mem_range.mpr (Nat.mul_pos hr hc))), ?_⟩
    rw [cellFn_range_getD, if_pos hk]
    exact mkCell_isDrawn dsms none 0 (hok 0 hk)
  have h0 : ¬(n_rows = 0) := by omega
  have hmain : plot_dsms (.many dsms) .noneArg n_rows
      = ⟨n_rows, c,
         ((List.range (n_rows * c)).map fun m => (m / c, m % c)).map
           (cellFn dsms none c), none⟩ := by
    simp only [plot_dsms, NamesArg.promote, DSMArg.promote, plot_dsms_grid, h0,
      ite_false, ← hcdef, hgrid, hdrawn, ite_true]
  refine ⟨by rw [hmain], by rw [hmain], hcdef ▸ ceilDiv_least _ _ hr,
    by rw [hmain]; simp, ?_⟩
  intro m hm
  have hcell : ((plot_dsms (.many dsms) .noneArg n_rows).cells.getD m .hidden)
      = (if m < dsms.length then mkCell dsms none m else .hidden) := by
    rw [hmain]
    show ((((List.range (n_rows * c)).map fun m => (m / c, m % c)).map
        (cellFn dsms none c)).getD m .hidden) = _
    rw [List.map_map, getD_map_range, if_pos hm]
    show cellFn dsms none c (m / c, m % c) = _
    rw [cellFn_range_getD]
  refine ⟨hcell, fun hmk => ?_⟩
  rw [hcell, if_pos hmk]
  exact mkCell_idxOf dsms none m (hok m hmk)

/-- C6 witness: three condensed DSMs in two rows give a 2-column grid with
three drawn cells and one hidden. -/
theorem grid_layout_cols_visible_hidden_witness :
    (0 < 2 ∧ 0 < [condDSM3, condDSM3, condDSM3].length ∧
        ∀ i, i < [condDSM3, condDSM3, condDSM3].length →
          exOk (renderAt [condDSM3, condDSM3, condDSM3] i) = true) ∧
      ((plot_dsms (.many [condDSM3, condDSM3, condDSM3]) .noneArg 2).error = none ∧
        (plot_dsms (.many [condDSM3, condDSM3, condDSM3]) .noneArg 2).nCols
          = ([condDSM3, condDSM3, condDSM3].length + 2 - 1) / 2 ∧
        ([condDSM3, condDSM3, condDSM3].length
            ≤ 2 * (([condDSM3, condDSM3, condDSM3].length + 2 - 1) / 2) ∧
          ∀ q, [condDSM3, condDSM3, condDSM3].length ≤ 2 * q →
            ([condDSM3, condDSM3, condDSM3].length + 2 - 1) / 2 ≤ q) ∧
        (plot_dsms (.many [condDSM3, condDSM3, condDSM3]) .noneArg 2).cells.length
          = 2 * (([condDSM3, condDSM3, condDSM3].length + 2 - 1) / 2) ∧
        ∀ m, m < 2 * (([condDSM3, condDSM3, condDSM3].length + 2 - 1) / 2) →
          ((plot_dsms (.many [condDSM3, condDSM3, condDSM3]) .noneArg 2).cells.getD
                m .hidden)
              = (if m < [condDSM3, condDSM3, condDSM3].length
                  then mkCell [condDSM3, condDSM3, condDSM3] none m else .hidden) ∧
            (m < [condDSM3, condDSM3, condDSM3].length →
              ((plot_dsms (.many [condDSM3, condDSM3, condDSM3]) .noneArg
                    2).cells.getD m .hidden).idxOf = some m)) :=
  ⟨⟨by decide, by decide, by decide⟩,
    grid_layout_cols_visible_hidden [condDSM3, condDSM3, condDSM3] 2
      (by decide) (by decide) (by decide)⟩

/-- C9: supplying an existing figure handle to the topo renderer
(`_plot_dsms_topo`) creates no new figure: the call re-activates and returns
that same figure number, the registry's figure-number list is unchanged (so
no figure object was added), and a second call with the same handle
overwrites the first call's panel contents at the same sensor slots with the
second call's data. -/
theorem figure_reuse_no_new_figure_and_replace (st : PltState) (n nS : ℕ)
    (a1 a2 : NDArray) (t1 t2 : Option String) (f : Figure)
    (hf : findFig st n = some f)
    (h1 : ∀ i, i < nS → i < a1.dim 0 ∧ (squareform (a1.rowOf i)).isSome = true)
    (h2 : ∀ i, i < nS → i < a2.dim 0 ∧ (squareform (a2.rowOf i)).isSome = true) :
    ∃ st1 st2,
      plot_dsms_topo st a1 nS (some n) t1 = .ok (st1, n) ∧
      st1.figures.map Figure.number = st.figures.map Figure.number ∧
      st1.nextNum = st.nextNum ∧
      plot_dsms_topo st1 a2 nS (some n) t2 = .ok (st2, n) ∧
      st2.figures.map Figure.number = st.figures.map Figure.number ∧
      st2.nextNum = st.nextNum ∧
      ∀ i, i < nS → panelOf st2 n i = squareform (a2.rowOf i) := by
  obtain ⟨st1, f1, hcall1, hnums1, hnext1, hfind1, _, _⟩ :=
    plot_dsms_topo_reuse st a1 nS n t1 f hf h1
  obtain ⟨st2, f2, hcall2, hnums2, hnext2, hfind2, _, hpanels2⟩ :=
    plot_dsms_topo_reuse st1 a2 nS n t2 f1 hfind1 h2
  refine ⟨st1, st2, hcall1, hnums1, hnext1, hcall2, by rw [hnums2, hnums1],
    by rw [hnext2, hnext1], ?_⟩
  intro i hi
  simp only [panelOf, hfind2]
  exact hpanels2 i hi

/-- C9 witness: one existing figure, two sequential calls with its handle. -/
theorem figure_reuse_no_new_figure_and_replace_witness :
    (findFig oneFigState 0 = some ⟨0, [], none⟩ ∧
        (∀ i, i < 1 → i < sensorDSM4.dim 0 ∧
          (squareform (sensorDSM4.rowOf i)).isSome = true) ∧
        (∀ i, i < 1 → i < sensorDSM7.dim 0 ∧
          (squareform (sensorDSM7.rowOf i)).isSome = true)) ∧
      ∃ st1 st2,
        plot_dsms_topo oneFigState sensorDSM4 1 (some 0) none = .ok (st1, 0) ∧
        st1.figures.map Figure.number = oneFigState.figures.map Figure.number ∧
        st1.nextNum = oneFigState.nextNum ∧
        plot_dsms_topo st1 sensorDSM7 1 (some 0) none = .ok (st2, 0) ∧
        st2.figures.map Figure.number = oneFigState.figures.map Figure.number ∧
        st2.nextNum = oneFigState.nextNum ∧
        ∀ i, i < 1 → panelOf st2 0 i = squareform (sensorDSM7.rowOf i) :=
  ⟨⟨rfl, by decide, by decide⟩,
    figure_reuse_no_new_figure_and_replace oneFigState 0 1 sensorDSM4 sensorDSM7
      none none ⟨0, [], none⟩ rfl (by decide) (by decide)⟩

/-- Python slicing with a nonnegative in-range bound leaves it unchanged. -/
theorem sliceIdx_natCast (t v : ℕ) (hv : v ≤ t) : sliceIdx t (v : ℤ) = v := by
  have hneg : ¬((v : ℤ) < 0) := by
    have := Int.natCast_nonneg v
    omega
  simp only [sliceIdx, hneg, ite_false, Int.toNat_natCast]
  omega

/-- C5: for each half-open window [w0, w1) within the time axis,
`plot_dsms_topos` slices the time axis to samples w0..w1-1 and draws, per
sensor, the squareform of the elementwise mean over those samples
(`windowMean`, the embedding of lines 225-226): the produced figure's panel i
holds `squareform ((windowMean a w0 w1).rowOf i)`, the figure title renders
w0 and w1, and each condensed entry of the mean equals the sum of the sliced
samples divided by the window length. -/
theorem window_mean_slice_and_render (st : PltState) (a : NDArray)
    (s t e w0 w1 nS : ℕ)
    (hs : a.shape = [s, t, e])
    (h01 : w0 < w1) (h1t : w1 ≤ t)
    (hnS : nS ≤ s)
    (hsq : (squareformDim e).isSome = true)
    (hfresh : findFig st st.nextNum = none) :
    ∃ st2 f2,
      plot_dsms_topos st a
          (some (.vList [.vList [.vInt (w0 : ℤ), .vInt (w1 : ℤ)]])) none nS
          = (st2, .ok [some st.nextNum]) ∧
      findFig st2 st.nextNum = some f2 ∧
      f2.title = some (winTitle (w0 : ℤ) (w1 : ℤ)) ∧
      (∀ i, i < nS →
        getSlot f2.panels i = squareform ((windowMean a (w0 : ℤ) (w1 : ℤ)).rowOf i)) ∧
      ∀ i k, i < s → k < e →
        (windowMean a (w0 : ℤ) (w1 : ℤ)).get2 i k
          = (((List.range (w1 - w0)).map fun j => a.get3 i (w0 + j) k).sum)
              / ((w1 - w0 : ℕ) : ℚ) := by
  have hd0 : a.dim 0 = s := by simp [NDArray.dim, hs]
  have hd1 : a.dim 1 = t := by simp [NDArray.dim, hs]
  have hd2 : a.dim 2 = e := by simp [NDArray.dim, hs]
  have hlo : sliceIdx (a.dim 1) (w0 : ℤ) = w0 := by
    rw [hd1]; exact sliceIdx_natCast t w0 (by omega)
  have hhi : sliceIdx (a.dim 1) (w1 : ℤ) = w1 := by
    rw [hd1]; exact sliceIdx_natCast t w1 h1t
  have hwm0 : (windowMean a (w0 : ℤ) (w1 : ℤ)).dim 0 = s := by
    simp [windowMean, NDArray.dim, hs]
  have hwm1 : (windowMean a (w0 : ℤ) (w1 : ℤ)).dim 1 = e := by
    simp [windowMean, NDArray.dim, hs]
  have hok : ∀ i, i < nS → i < (windowMean a (w0 : ℤ) (w1 : ℤ)).dim 0 ∧
      (squareform ((windowMean a (w0 : ℤ) (w1 : ℤ)).rowOf i)).isSome = true := by
    intro i hi
    refine ⟨by omega, ?_⟩
    rw [squareform_isSome]
    have hlen : ((windowMean a (w0 : ℤ) (w1 : ℤ)).rowOf i).length = e := by
      simp only [NDArray.rowOf, List.length_map, List.length_range, hwm1]
    rw [hlen]
    exact hsq
  obtain ⟨st2, f2, htopo, hfind, htitle, hnums, hpanels⟩ :=
    plot_dsms_topo_create st (windowMean a (w0 : ℤ) (w1 : ℤ)) nS
      (some (winTitle (w0 : ℤ) (w1 : ℤ))) hfresh hok
  refine ⟨st2, f2, ?_, hfind, htitle, hpanels, ?_⟩
  · have hshape3 : ¬(a.shape.length ≠ 3) := by rw [hs]; simp
    simp only [plot_dsms_topos, hshape3, ite_false, PyVal.isVList, PyVal.elems,
      List.all_cons, List.all_nil, Bool.and_true, not_true, Bool.true_eq_false,
      List.length_cons, List.length_nil, List.replicate, runWindows, winBounds,
      htopo, if_false, Except.map]
  · intro i k hi hk2
    have hpos : 0 < a.dim 2 := by omega
    have hdata : (windowMean a (w0 : ℤ) (w1 : ℤ)).data
        = (List.range (a.dim 0 * a.dim 2)).map fun m =>
            (((List.range (sliceIdx (a.dim 1) (w1 : ℤ) - sliceIdx (a.dim 1) (w0 : ℤ))).map
              fun j => a.get3 (m / a.dim 2) (sliceIdx (a.dim 1) (w0 : ℤ) + j) (m % a.dim 2)).sum)
              / ((sliceIdx (a.dim 1) (w1 : ℤ) - sliceIdx (a.dim 1) (w0 : ℤ) : ℕ) : ℚ) :=
      flatMap_range_eq _ (a.dim 0) (a.dim 2) hpos
    rw [hlo, hhi, hd0, hd2] at hdata
    have hin : i * e + k < s * e := by
      have hb1 : (i + 1) * e ≤ s * e := Nat.mul_le_mul_right e (Nat.succ_le_of_lt hi)
      have hb2 : (i + 1) * e = i * e + e := Nat.succ_mul i e
      omega
    have hdiv : (i * e + k) / e = i := by
      rw [Nat.add_comm, Nat.mul_comm, Nat.add_mul_div_left _ _ (by omega : 0 < e),
        Nat.div_eq_of_lt hk2, Nat.zero_add]
    have hmod : (i * e + k) % e = k := by
      rw [Nat.add_comm, Nat.mul_comm, Nat.add_mul_mod_self_left, Nat.mod_eq_of_lt hk2]
    simp only [NDArray.get2, hwm1, hdata, getD_map_range, hin, ite_true, hdiv, hmod]

/-- C5 witness: 2 sensors, 4 time samples, condensed size 1, per-sensor
values [1,2,3,4]; window [1,3) gives mean 5/2 = 2.5 for each sensor. -/
theorem window_mean_slice_and_render_witness :
    (sampleTensor.shape = [2, 4, 1] ∧ (1 : ℕ) < 3 ∧ (3 : ℕ) ≤ 4 ∧ (2 : ℕ) ≤ 2 ∧
        (squareformDim 1).isSome = true ∧ findFig emptyPlt emptyPlt.nextNum = none) ∧
      (∃ st2 f2,
        plot_dsms_topos emptyPlt sampleTensor
            (some (.vList [.vList [.vInt ((1 : ℕ) : ℤ), .vInt ((3 : ℕ) : ℤ)]])) none 2
            = (st2, .ok [some emptyPlt.nextNum]) ∧
        findFig st2 emptyPlt.nextNum = some f2 ∧
        f2.title = some (winTitle ((1 : ℕ) : ℤ) ((3 : ℕ) : ℤ)) ∧
        (∀ i, i < 2 →
          getSlot f2.panels i
            = squareform ((windowMean sampleTensor ((1 : ℕ) : ℤ) ((3 : ℕ) : ℤ)).rowOf i)) ∧
        ∀ i k, i < 2 → k < 1 →
          (windowMean sampleTensor ((1 : ℕ) : ℤ) ((3 : ℕ) : ℤ)).get2 i k
            = (((List.range (3 - 1)).map fun j => sampleTensor.get3 i (1 + j) k).sum)
                / ((3 - 1 : ℕ) : ℚ)) ∧
      (windowMean sampleTensor ((1 : ℕ) : ℤ) ((3 : ℕ) : ℤ)).get2 0 0 = 5 / 2 := by
  have hthm := window_mean_slice_and_render emptyPlt sampleTensor 2 4 1 1 3 2 rfl (by decide) (by decide)
    (by decide) (by decide) rfl
  refine ⟨⟨rfl, by decide, by decide, by decide, by decide, rfl⟩, hthm, ?_⟩
  obtain ⟨st2, f2, hrun, hfind, htitle, hpanels, hmean⟩ := hthm
  have h00 := hmean 0 0 (by decide) (by decide)
  rw [h00]
  norm_num [List.range_succ, NDArray.get3, NDArray.dim, sampleTensor, List.getD]

end MneRsaViz
